import Mathlib

/-!
Verification development for the resume-builder web application.

The data model follows src/types.ts, the service layer follows
src/services/geminiService.ts, and the application state machine follows
the App component in src/App.tsx.  JavaScript-specific semantics
(string truthiness for the logical-or operator, String.prototype.trim,
String.prototype.includes, object spread over optional properties) are
embedded by small explicit helper functions.  The network call to the
generative-model API and its JSON parsing are represented by an explicit
`Except String` argument; the random id generator is represented by an
oracle supplying the generated ids.
-/

namespace ResumeBuilder

/-! ## JavaScript string semantics helpers -/

/-- Code points removed by JavaScript String.prototype.trim
(WhiteSpace and LineTerminator productions). -/
def jsWhitespaceChar (c : Char) : Bool :=
  c == ' ' || c == '\t' || c == '\n' || c == '\x0d' ||
  c == '\x0b' || c == '\x0c' || c == ' ' || c == ' ' ||
  (0x2000 ≤ c.toNat && c.toNat ≤ 0x200a) ||
  c == ' ' || c == ' ' || c == ' ' || c == ' ' ||
  c == '　' || c == '﻿'

/-- Model of JavaScript String.prototype.trim. -/
def jsTrim (s : String) : String :=
  ⟨((s.data.dropWhile jsWhitespaceChar).reverse.dropWhile jsWhitespaceChar).reverse⟩

/-- Model of the JavaScript logical-or on strings: the empty string is
falsy, every other string is truthy. -/
def jsOrStr (a b : String) : String :=
  if a == "" then b else a

/-- Model of the JavaScript logical-or applied to a possibly-undefined
string (an absent optional property is falsy, as is the empty string). -/
def jsOrUndefStr (a : Option String) (b : String) : String :=
  match a with
  | some v => jsOrStr v b
  | none => b

/-- Whether the character list starting here begins with the pattern. -/
def startsWithCL : List Char → List Char → Bool
  | _, [] => true
  | [], _ :: _ => false
  | a :: as, b :: bs => a == b && startsWithCL as bs

/-- Whether the pattern occurs somewhere in the character list. -/
def occursInCL : List Char → List Char → Bool
  | [], pat => startsWithCL [] pat
  | a :: as, pat => startsWithCL (a :: as) pat || occursInCL as pat

/-- Model of JavaScript String.prototype.includes. -/
def jsIncludes (s pat : String) : Bool :=
  occursInCL s.data pat.data

/-! ## Data model (src/types.ts) -/

structure PersonalInfo where
  name : String
  phoneNumber : String
  email : String
  linkedin : String
  portfolio : String
  deriving DecidableEq

structure Education where
  id : String
  degree : String
  university : String
  location : String
  startDate : String
  endDate : String
  gpa : String
  deriving DecidableEq

structure Project where
  id : String
  companyName : String
  location : String
  startDate : String
  endDate : String
  role : String
  description : String
  responsibilities : String
  tools : String
  deriving DecidableEq

/-- EnhancedProject extends Project with six optional properties; an
absent optional property is `none`. -/
structure EnhancedProject where
  id : String
  companyName : String
  location : String
  startDate : String
  endDate : String
  role : String
  description : String
  responsibilities : String
  tools : String
  enhancedDescription : Option String := none
  enhancedResponsibilities : Option String := none
  enhancedTools : Option String := none
  suggestedDatabase : Option String := none
  suggestedCloud : Option String := none
  suggestedDashboard : Option String := none
  deriving DecidableEq

/-- The implicit structural upcast from Project to EnhancedProject used
when plain projects are stored in ResumeData.projects: the optional
properties are absent. -/
def Project.toEnhanced (p : Project) : EnhancedProject :=
  { id := p.id, companyName := p.companyName, location := p.location,
    startDate := p.startDate, endDate := p.endDate, role := p.role,
    description := p.description, responsibilities := p.responsibilities,
    tools := p.tools }

structure ResumeData where
  personalInfo : PersonalInfo
  education : List Education
  projects : List EnhancedProject
  summary : String
  skills : List String
  deriving DecidableEq

structure Profile where
  id : String
  name : String
  resumeData : ResumeData
  deriving DecidableEq

structure GeminiTailoredResumeResponse where
  summary : String
  skills : List String
  enhancedProjects : List EnhancedProject
  deriving DecidableEq

structure ResumeExtractionResponse where
  personalInfo : PersonalInfo
  education : List Education
  projects : List Project
  summary : String
  skills : List String
  deriving DecidableEq

/-- One entry of improvementSuggestions in GeminiMatchAnalysisResponse. -/
structure Suggestion where
  projectId : String
  projectName : String
  suggestion : String
  deriving DecidableEq

/-- Match-analysis response.  The matchPercentage JavaScript number is
modelled as an integer; no claim depends on its arithmetic. -/
structure GeminiMatchAnalysisResponse where
  matchPercentage : Int
  matchSummary : String
  missingKeywords : List String
  improvementSuggestions : List Suggestion
  deriving DecidableEq

/-- Desired resume length passed to generateTailoredResume. -/
inductive ResumeLength where
  | onePage
  | twoPage
  deriving DecidableEq

/-! ## Constants (src/constants.ts, restricted to the fields of the
current types.ts; the stale internship field of the initial resume data
has no counterpart in the ResumeData type and is not modelled) -/

def INITIAL_PERSONAL_INFO : PersonalInfo :=
  { name := "", phoneNumber := "", email := "", linkedin := "", portfolio := "" }

def INITIAL_EDUCATION : Education :=
  { id := "edu-1", degree := "", university := "", location := "",
    startDate := "", endDate := "", gpa := "" }

def INITIAL_PROJECT : Project :=
  { id := "proj-1", companyName := "", location := "", startDate := "",
    endDate := "", role := "", description := "", responsibilities := "",
    tools := "" }

def INITIAL_RESUME_DATA : ResumeData :=
  { personalInfo := INITIAL_PERSONAL_INFO, education := [], projects := [],
    summary := "", skills := [] }

def DEFAULT_PROFILE_NAME : String := "New Profile"

def UPLOADED_PROFILE_NAME : String := "Uploaded Resume"

/-! ## Service layer (src/services/geminiService.ts)

Each service function validates its inputs, performs the model call, and
parses the JSON response inside a try block whose catch normalises the
error message.  The awaited-and-parsed outcome of the model call is the
explicit `call` argument: `Except.ok r` when the call returned a response
parsing to `r`, `Except.error msg` when it threw with message `msg`. -/

/-- Error-message normalisation performed by the catch blocks of the
service functions, with the function-specific base message. -/
def geminiCatchMessage (base msg : String) : String :=
  if msg != "" then
    if jsIncludes msg "API_KEY" || jsIncludes msg "invalid" || jsIncludes msg "not found" then
      "API Key is invalid or not configured. Please enter a valid API Key."
    else
      base ++ " Details: " ++ msg
  else
    base ++ " Details: " ++ msg

/-- The try block around the model call shared by the service functions:
a successful call is returned, a thrown error is re-thrown with the
normalised message. -/
def geminiCall {α : Type} (base : String) (call : Except String α) :
    Except String α :=
  match call with
  | Except.ok r => Except.ok r
  | Except.error msg => Except.error (geminiCatchMessage base msg)

/-- Shallow embedding of generateTailoredResume.  The resume data and the
requested length only shape the prompt text, which has no further
observable effect here. -/
def generateTailoredResume (apiKey : String) (_resumeData : ResumeData)
    (jobDescription : String) (_resumeLength : ResumeLength)
    (call : Except String GeminiTailoredResumeResponse) :
    Except String GeminiTailoredResumeResponse :=
  if apiKey == "" then
    Except.error "API Key is not configured."
  else if jobDescription == "" || jsTrim jobDescription == "" then
    Except.error "Job description cannot be empty for tailoring the resume."
  else
    geminiCall "Failed to generate tailored resume." call

/-- Shallow embedding of extractResumeData. -/
def extractResumeData (apiKey : String) (rawResumeText : String)
    (call : Except String ResumeExtractionResponse) :
    Except String ResumeExtractionResponse :=
  if apiKey == "" then
    Except.error "API Key is not configured."
  else if rawResumeText == "" || jsTrim rawResumeText == "" then
    Except.error "Resume text cannot be empty for extraction."
  else
    geminiCall "Failed to extract resume data." call

/-- Shallow embedding of analyzeResumeJobMatch. -/
def analyzeResumeJobMatch (apiKey : String) (_resumeData : ResumeData)
    (jobDescription : String)
    (call : Except String GeminiMatchAnalysisResponse) :
    Except String GeminiMatchAnalysisResponse :=
  if apiKey == "" then
    Except.error "API Key is not configured."
  else if jobDescription == "" || jsTrim jobDescription == "" then
    Except.error "Job description cannot be empty for analysis."
  else
    geminiCall "Failed to analyze resume match." call

/-! ## Reconciliation of the tailoring response (App.tsx, startResumeGeneration) -/

/-- Spread of one optional property: a property present on the second
object wins, an absent one leaves the first object's property. -/
def spreadField (o e : Option String) : Option String :=
  match e with
  | some v => some v
  | none => o

/-- Object spread of an AI-returned record over the original project
record, as in the expression building updatedProjects.  Every required
property of the AI record overrides; each optional property overrides
exactly when present. -/
def spreadMergeProject (originalProject ep : EnhancedProject) : EnhancedProject :=
  { id := ep.id, companyName := ep.companyName, location := ep.location,
    startDate := ep.startDate, endDate := ep.endDate, role := ep.role,
    description := ep.description, responsibilities := ep.responsibilities,
    tools := ep.tools,
    enhancedDescription := spreadField originalProject.enhancedDescription ep.enhancedDescription,
    enhancedResponsibilities := spreadField originalProject.enhancedResponsibilities ep.enhancedResponsibilities,
    enhancedTools := spreadField originalProject.enhancedTools ep.enhancedTools,
    suggestedDatabase := spreadField originalProject.suggestedDatabase ep.suggestedDatabase,
    suggestedCloud := spreadField originalProject.suggestedCloud ep.suggestedCloud,
    suggestedDashboard := spreadField originalProject.suggestedDashboard ep.suggestedDashboard }

/-- Reconciliation of the AI-returned project records with the current
profile's project list: each AI record is merged over the current project
with the same id when one exists and taken as-is otherwise.  The result
ranges over the AI response's records only. -/
def mergeTailoredProjects (currentProjects aiProjects : List EnhancedProject) :
    List EnhancedProject :=
  aiProjects.map (fun ep =>
    match currentProjects.find? (fun p => p.id == ep.id) with
    | some originalProject => spreadMergeProject originalProject ep
    | none => ep)

/-! ## Helper lemmas on the reconciliation -/

/-- When the current project ids are distinct, the lookup inside the
reconciliation finds exactly the current project carrying the looked-up id. -/
theorem find?_id_eq_of_nodup (l : List EnhancedProject) (x : String) (p : EnhancedProject)
    (hnd : (l.map EnhancedProject.id).Nodup) (hmem : p ∈ l) (hid : p.id = x) :
    l.find? (fun q => q.id == x) = some p := by
  induction l with
  | nil => simp at hmem
  | cons a as ih =>
    simp only [List.map_cons, List.nodup_cons] at hnd
    rcases List.mem_cons.mp hmem with h | h
    · subst h
      rw [List.find?_cons_of_pos]
      simp [hid]
    · have hax : ¬ a.id = x := by
        intro hax
        have hin : p.id ∈ as.map EnhancedProject.id := List.mem_map_of_mem _ h
        rw [hid, ← hax] at hin
        exact hnd.1 hin
      rw [List.find?_cons_of_neg]
      · exact ih hnd.2 h
      · simp [hax]

/-- Every record of the merged list carries the id of some AI-returned record. -/
theorem mergeTailoredProjects_id_mem (cur ai : List EnhancedProject) (q : EnhancedProject)
    (hq : q ∈ mergeTailoredProjects cur ai) : ∃ ep ∈ ai, q.id = ep.id := by
  unfold mergeTailoredProjects at hq
  rcases List.mem_map.mp hq with ⟨ep, hep, heq⟩
  refine ⟨ep, hep, ?_⟩
  cases hfind : cur.find? (fun p => p.id == ep.id) with
  | none => rw [hfind] at heq; rw [← heq]
  | some o => rw [hfind] at heq; rw [← heq]; rfl

/-- An AI-returned record whose id matches no current project is kept
unchanged in the merged list. -/
theorem mem_merge_self (cur ai : List EnhancedProject) (ep : EnhancedProject)
    (hep : ep ∈ ai) (hno : ∀ p ∈ cur, p.id ≠ ep.id) :
    ep ∈ mergeTailoredProjects cur ai := by
  have hfind : cur.find? (fun p => p.id == ep.id) = none := by
    rw [List.find?_eq_none]
    intro p hp
    simp [hno p hp]
  unfold mergeTailoredProjects
  refine List.mem_map.mpr ⟨ep, hep, ?_⟩
  rw [hfind]

/-- An AI-returned record whose id matches a current project appears in the
merged list as the spread of that record over the current project. -/
theorem mem_merge_spread (cur ai : List EnhancedProject)
    (hnd : (cur.map EnhancedProject.id).Nodup)
    (p : EnhancedProject) (hp : p ∈ cur) (ep : EnhancedProject) (hep : ep ∈ ai)
    (hid : ep.id = p.id) :
    spreadMergeProject p ep ∈ mergeTailoredProjects cur ai := by
  unfold mergeTailoredProjects
  refine List.mem_map.mpr ⟨ep, hep, ?_⟩
  rw [find?_id_eq_of_nodup cur ep.id p hnd hp hid.symm]

/-! ## Sample records used for concrete evaluations -/

def sampleProjectA : EnhancedProject :=
  { id := "p1", companyName := "Acme", location := "NYC", startDate := "2020",
    endDate := "2021", role := "Dev", description := "d", responsibilities := "r",
    tools := "t", enhancedResponsibilities := some "old enhanced" }

def sampleAiA : EnhancedProject :=
  { id := "p1", companyName := "Acme", location := "NYC", startDate := "2020",
    endDate := "2021", role := "Dev", description := "d2", responsibilities := "r2",
    tools := "t2", enhancedDescription := some "ed" }

def sampleResponse : GeminiTailoredResumeResponse :=
  { summary := "s", skills := ["k"], enhancedProjects := [sampleAiA] }

/-! ## Claims C1, C2, C4 -/

/-- C1 counterexample: the merged project list ranges over the AI response's
records only, so with a nonempty profile project list and an AI response
containing no project record, the profile's project is not present afterwards
in any form — refuting the claim that every project present before the merge
is still present afterwards, including projects whose id does not appear in
the AI response. -/
theorem claim_C1_counterexample :
    sampleProjectA ∈ [sampleProjectA] ∧
    ¬ ∃ q ∈ mergeTailoredProjects [sampleProjectA] [], q.id = sampleProjectA.id := by
  constructor
  · simp
  · simp [mergeTailoredProjects]

/-- C1 (amended): when the profile's project ids are distinct, every profile
project whose id appears in the AI response is still present afterwards,
merged with the AI record of that id (AI fields overriding, omitted fields
preserved); a profile project whose id appears in no AI record is lost: no
merged record carries its id. -/
theorem claim_C1 (current ai : List EnhancedProject)
    (hnd : (current.map EnhancedProject.id).Nodup) :
    (∀ p ∈ current, ∀ ep ∈ ai, ep.id = p.id →
        spreadMergeProject p ep ∈ mergeTailoredProjects current ai) ∧
    (∀ p ∈ current, (∀ ep ∈ ai, ep.id ≠ p.id) →
        ∀ q ∈ mergeTailoredProjects current ai, q.id ≠ p.id) := by
  constructor
  · intro p hp ep hep hid
    exact mem_merge_spread current ai hnd p hp ep hep hid
  · intro p hp hno q hq
    rcases mergeTailoredProjects_id_mem current ai q hq with ⟨ep, hep, hqe⟩
    rw [hqe]
    exact hno ep hep

/-- C1 witness: the amended statement applied to a one-project profile and a
matching one-record AI response. -/
theorem claim_C1_witness :
    spreadMergeProject sampleProjectA sampleAiA ∈
      mergeTailoredProjects [sampleProjectA] [sampleAiA] :=
  (claim_C1 [sampleProjectA] [sampleAiA] (by simp)).1 sampleProjectA (by simp)
    sampleAiA (by simp) rfl

/-- C2: merging an AI record over the profile project with the same id agrees
with the AI record on every field the AI record defines (all required fields,
and each optional field that is present) and with the original project on
every optional field the AI record omits; an AI record matching no current
project id is taken into the merged list as-is. -/
theorem claim_C2 :
    (∀ originalProject ep : EnhancedProject,
      (spreadMergeProject originalProject ep).id = ep.id ∧
      (spreadMergeProject originalProject ep).companyName = ep.companyName ∧
      (spreadMergeProject originalProject ep).location = ep.location ∧
      (spreadMergeProject originalProject ep).startDate = ep.startDate ∧
      (spreadMergeProject originalProject ep).endDate = ep.endDate ∧
      (spreadMergeProject originalProject ep).role = ep.role ∧
      (spreadMergeProject originalProject ep).description = ep.description ∧
      (spreadMergeProject originalProject ep).responsibilities = ep.responsibilities ∧
      (spreadMergeProject originalProject ep).tools = ep.tools ∧
      (∀ v, ep.enhancedDescription = some v →
        (spreadMergeProject originalProject ep).enhancedDescription = some v) ∧
      (ep.enhancedDescription = none →
        (spreadMergeProject originalProject ep).enhancedDescription
          = originalProject.enhancedDescription) ∧
      (∀ v, ep.enhancedResponsibilities = some v →
        (spreadMergeProject originalProject ep).enhancedResponsibilities = some v) ∧
      (ep.enhancedResponsibilities = none →
        (spreadMergeProject originalProject ep).enhancedResponsibilities
          = originalProject.enhancedResponsibilities) ∧
      (∀ v, ep.enhancedTools = some v →
        (spreadMergeProject originalProject ep).enhancedTools = some v) ∧
      (ep.enhancedTools = none →
        (spreadMergeProject originalProject ep).enhancedTools
          = originalProject.enhancedTools) ∧
      (∀ v, ep.suggestedDatabase = some v →
        (spreadMergeProject originalProject ep).suggestedDatabase = some v) ∧
      (ep.suggestedDatabase = none →
        (spreadMergeProject originalProject ep).suggestedDatabase
          = originalProject.suggestedDatabase) ∧
      (∀ v, ep.suggestedCloud = some v →
        (spreadMergeProject originalProject ep).suggestedCloud = some v) ∧
      (ep.suggestedCloud = none →
        (spreadMergeProject originalProject ep).suggestedCloud
          = originalProject.suggestedCloud) ∧
      (∀ v, ep.suggestedDashboard = some v →
        (spreadMergeProject originalProject ep).suggestedDashboard = some v) ∧
      (ep.suggestedDashboard = none →
        (spreadMergeProject originalProject ep).suggestedDashboard
          = originalProject.suggestedDashboard)) ∧
    (∀ currentProjects aiProjects : List EnhancedProject, ∀ ep ∈ aiProjects,
      (∀ p ∈ currentProjects, p.id ≠ ep.id) →
      ep ∈ mergeTailoredProjects currentProjects aiProjects) := by
  constructor
  · intro o ep
    refine ⟨rfl, rfl, rfl, rfl, rfl, rfl, rfl, rfl, rfl,
      ?_, ?_, ?_, ?_, ?_, ?_, ?_, ?_, ?_, ?_, ?_, ?_⟩
    all_goals
      first
        | (intro v hv; simp [spreadMergeProject, spreadField, hv])
        | (intro hv; simp [spreadMergeProject, spreadField, hv])
  · exact fun cur ai ep hep hno => mem_merge_self cur ai ep hep hno

/-- C2 witness: the merge applied to a concrete original project (with a
previously saved enhanced field) and a concrete AI record omitting it. -/
theorem claim_C2_witness :
    (spreadMergeProject sampleProjectA sampleAiA).enhancedDescription = some "ed" ∧
    (spreadMergeProject sampleProjectA sampleAiA).enhancedResponsibilities
      = some "old enhanced" ∧
    sampleAiA ∈ mergeTailoredProjects [] [sampleAiA] := by
  refine ⟨?_, ?_, ?_⟩
  · exact ((claim_C2.1 sampleProjectA sampleAiA).2.2.2.2.2.2.2.2.2.1) "ed" rfl
  · have h := ((claim_C2.1 sampleProjectA sampleAiA).2.2.2.2.2.2.2.2.2.2.2.2.1) rfl
    rw [h]
    rfl
  · exact claim_C2.2 [] [sampleAiA] sampleAiA (by simp) (by simp)

/-- C4 counterexample: generateTailoredResume rejects with an empty API key
even though the model call itself succeeds, refuting the claim that the
service functions reject only due to a failed model call. -/
theorem claim_C4_counterexample :
    generateTailoredResume "" INITIAL_RESUME_DATA "job" ResumeLength.onePage
      (Except.ok sampleResponse) = Except.error "API Key is not configured." := by
  rfl

/-- Shape shared by the three service functions: validation of the key and
of the text input, then the model call with catch-block message wrapping. -/
theorem service_error_iff {α : Type} (apiKey input specific base : String)
    (call : Except String α) :
    (∃ m, (if apiKey == "" then Except.error "API Key is not configured."
           else if input == "" || jsTrim input == "" then Except.error specific
           else geminiCall base call)
        = (Except.error m : Except String α)) ↔
    (apiKey = "" ∨ jsTrim input = "" ∨ ∃ m0, call = Except.error m0) := by
  by_cases h1 : apiKey = ""
  · simp [h1]
  · by_cases h2 : jsTrim input = ""
    · have hin : (input == "" || jsTrim input == "") = true := by
        simp [h2]
      simp [h1, h2, hin]
    · have hinp : ¬ input = "" := by
        intro he
        exact h2 (by rw [he]; rfl)
      have hin : (input == "" || jsTrim input == "") = false := by
        simp [hinp, h2]
      cases call with
      | ok r => simp [geminiCall, h1, h2, hin]
      | error m0 => simp [geminiCall, h1, h2, hin]

/-- C4 (amended): each of the three service functions rejects exactly when
the API key is empty, the required text input is empty after trimming, or the
model call fails; every failure is surfaced as an error-message string. -/
theorem claim_C4 :
    (∀ apiKey rd jd len call,
      (∃ m, generateTailoredResume apiKey rd jd len call = Except.error m) ↔
      (apiKey = "" ∨ jsTrim jd = "" ∨ ∃ m0, call = Except.error m0)) ∧
    (∀ apiKey rawText call,
      (∃ m, extractResumeData apiKey rawText call = Except.error m) ↔
      (apiKey = "" ∨ jsTrim rawText = "" ∨ ∃ m0, call = Except.error m0)) ∧
    (∀ apiKey rd jd call,
      (∃ m, analyzeResumeJobMatch apiKey rd jd call = Except.error m) ↔
      (apiKey = "" ∨ jsTrim jd = "" ∨ ∃ m0, call = Except.error m0)) := by
  refine ⟨?_, ?_, ?_⟩
  · intro apiKey rd jd len call
    unfold generateTailoredResume
    exact service_error_iff apiKey jd
      "Job description cannot be empty for tailoring the resume."
      "Failed to generate tailored resume." call
  · intro apiKey rawText call
    unfold extractResumeData
    exact service_error_iff apiKey rawText
      "Resume text cannot be empty for extraction."
      "Failed to extract resume data." call
  · intro apiKey rd jd call
    unfold analyzeResumeJobMatch
    exact service_error_iff apiKey jd
      "Job description cannot be empty for analysis."
      "Failed to analyze resume match." call

/-- C4 witness: the amended statement applied with an empty API key and a
successful model call still yields an error string. -/
theorem claim_C4_witness :
    ∃ m, generateTailoredResume "" INITIAL_RESUME_DATA "job" ResumeLength.onePage
      (Except.ok sampleResponse) = Except.error m :=
  (claim_C4.1 "" INITIAL_RESUME_DATA "job" ResumeLength.onePage
    (Except.ok sampleResponse)).mpr (Or.inl rfl)

/-! ## Local storage and application state (src/App.tsx)

The component state of App is collected in one structure together with the
browser local-storage entries the component reads and writes.  The two
fields pendingTailor and tailorRequests instrument the single asynchronous
tailoring request: pendingTailor is true exactly while a request issued by
startResumeGeneration has not settled, and tailorRequests counts the
requests issued so far. -/

structure Storage where
  resumeProfiles : Option String := none
  lastSelectedProfileId : Option String := none
  geminiApiKey : Option String := none
  deriving DecidableEq

structure AppState where
  profiles : List Profile
  currentProfileId : Option String
  currentResumeData : ResumeData
  manualApiKey : String
  effectiveApiKey : Option String
  aiKeyError : Option String
  jobDescription : String
  loadingTailor : Bool
  tailorError : Option String
  isLengthModalVisible : Bool
  showResumeUploadModal : Bool
  storage : Storage
  pendingTailor : Bool
  tailorRequests : Nat
  deriving DecidableEq

/-! ## JSON serialization of the profile list

Model of JSON.stringify as applied by the persistence effect to the profile
list, with the properties of each object in the field order of types.ts and
absent optional properties omitted. -/

def toHexDigit (n : Nat) : Char :=
  if n < 10 then Char.ofNat (48 + n) else Char.ofNat (87 + n)

def jsonEscapeChar (c : Char) : List Char :=
  if c == '"' then ['\\', '"']
  else if c == '\\' then ['\\', '\\']
  else if c == '\n' then ['\\', 'n']
  else if c == '\x0d' then ['\\', 'r']
  else if c == '\t' then ['\\', 't']
  else if c == '\x08' then ['\\', 'b']
  else if c == '\x0c' then ['\\', 'f']
  else if c.toNat < 32 then
    ['\\', 'u', '0', '0', toHexDigit (c.toNat / 16), toHexDigit (c.toNat % 16)]
  else [c]

def jsonQuote (s : String) : String :=
  ⟨'"' :: (s.data.foldr (fun c acc => jsonEscapeChar c ++ acc) ['"'])⟩

def jsonObj (fields : List (String × String)) : String :=
  "\x7b" ++ String.intercalate "," (fields.map (fun f => jsonQuote f.1 ++ ":" ++ f.2)) ++ "\x7d"

def jsonArr (elems : List String) : String :=
  "[" ++ String.intercalate "," elems ++ "]"

def optJsonField (k : String) : Option String → List (String × String)
  | some v => [(k, jsonQuote v)]
  | none => []

def serializePersonalInfo (p : PersonalInfo) : String :=
  jsonObj [("name", jsonQuote p.name), ("phoneNumber", jsonQuote p.phoneNumber),
    ("email", jsonQuote p.email), ("linkedin", jsonQuote p.linkedin),
    ("portfolio", jsonQuote p.portfolio)]

def serializeEducation (e : Education) : String :=
  jsonObj [("id", jsonQuote e.id), ("degree", jsonQuote e.degree),
    ("university", jsonQuote e.university), ("location", jsonQuote e.location),
    ("startDate", jsonQuote e.startDate), ("endDate", jsonQuote e.endDate),
    ("gpa", jsonQuote e.gpa)]

def serializeEnhancedProject (p : EnhancedProject) : String :=
  jsonObj ([("id", jsonQuote p.id), ("companyName", jsonQuote p.companyName),
    ("location", jsonQuote p.location), ("startDate", jsonQuote p.startDate),
    ("endDate", jsonQuote p.endDate), ("role", jsonQuote p.role),
    ("description", jsonQuote p.description),
    ("responsibilities", jsonQuote p.responsibilities),
    ("tools", jsonQuote p.tools)] ++
    optJsonField "enhancedDescription" p.enhancedDescription ++
    optJsonField "enhancedResponsibilities" p.enhancedResponsibilities ++
    optJsonField "enhancedTools" p.enhancedTools ++
    optJsonField "suggestedDatabase" p.suggestedDatabase ++
    optJsonField "suggestedCloud" p.suggestedCloud ++
    optJsonField "suggestedDashboard" p.suggestedDashboard)

def serializeResumeData (rd : ResumeData) : String :=
  jsonObj [("personalInfo", serializePersonalInfo rd.personalInfo),
    ("education", jsonArr (rd.education.map serializeEducation)),
    ("projects", jsonArr (rd.projects.map serializeEnhancedProject)),
    ("summary", jsonQuote rd.summary),
    ("skills", jsonArr (rd.skills.map jsonQuote))]

def serializeProfile (p : Profile) : String :=
  jsonObj [("id", jsonQuote p.id), ("name", jsonQuote p.name),
    ("resumeData", serializeResumeData p.resumeData)]

def serializeProfiles (l : List Profile) : String :=
  jsonArr (l.map serializeProfile)

/-! ## Effects of the App component

The effect bodies that run after each committed state change: the
persistence effect (dependencies: profiles, currentProfileId), the effect
loading the selected profile data (same dependencies), and the effect
deriving the missing-API-key banner.  Each body is idempotent on its
dependencies, so running the bodies after every action coincides with
React's dependency-change semantics. -/

def runPersistenceEffect (s : AppState) : AppState :=
  let st := { s.storage with resumeProfiles := some (serializeProfiles s.profiles) }
  let st := match s.currentProfileId with
    | some cid => { st with lastSelectedProfileId := some cid }
    | none => st
  { s with storage := st }

def runSyncCurrentProfileEffect (s : AppState) : AppState :=
  match s.profiles.find? (fun p => some p.id == s.currentProfileId) with
  | some profile => { s with currentResumeData := profile.resumeData }
  | none => s

def apiKeyMissingMessage : String :=
  "API Key is not configured. AI features will be disabled. Please enter your API Key below."

def runApiKeyErrorEffect (s : AppState) : AppState :=
  if s.effectiveApiKey.isNone then { s with aiKeyError := some apiKeyMissingMessage }
  else { s with aiKeyError := none }

def runEffects (s : AppState) : AppState :=
  runApiKeyErrorEffect (runSyncCurrentProfileEffect (runPersistenceEffect s))

/-! ## Handlers of the App component -/

/-- updateResumeData: applies a partial update (modelled as the function
producing the spreaded record) to the current resume data and writes the
result into the profile whose id is the current one. -/
def updateResumeData (s : AppState) (upd : ResumeData → ResumeData) : AppState :=
  let updatedData := upd s.currentResumeData
  { s with
      currentResumeData := updatedData,
      profiles := s.profiles.map (fun p =>
        if some p.id == s.currentProfileId then { p with resumeData := updatedData }
        else p) }

def handleUpdateEducation (s : AppState) (updatedEdu : Education) : AppState :=
  updateResumeData s (fun rd =>
    { rd with education := rd.education.map (fun edu =>
        if edu.id == updatedEdu.id then updatedEdu else edu) })

def handleAddEducation (s : AppState) (freshId : String) : AppState :=
  updateResumeData s (fun rd =>
    { rd with education := rd.education ++ [{ INITIAL_EDUCATION with id := freshId }] })

def handleRemoveEducation (s : AppState) (id : String) : AppState :=
  updateResumeData s (fun rd =>
    { rd with education := rd.education.filter (fun edu => edu.id != id) })

def handleUpdateProject (s : AppState) (updatedProject : EnhancedProject) : AppState :=
  updateResumeData s (fun rd =>
    { rd with projects := rd.projects.map (fun proj =>
        if proj.id == updatedProject.id then updatedProject else proj) })

def handleAddProject (s : AppState) (freshId : String) : AppState :=
  updateResumeData s (fun rd =>
    { rd with projects :=
        rd.projects ++ [Project.toEnhanced { INITIAL_PROJECT with id := freshId }] })

def handleRemoveProject (s : AppState) (id : String) : AppState :=
  updateResumeData s (fun rd =>
    { rd with projects := rd.projects.filter (fun proj => proj.id != id) })

def handleSaveEnhancedProject (s : AppState) (enhancedProject : EnhancedProject) : AppState :=
  updateResumeData s (fun rd =>
    { rd with projects := rd.projects.map (fun p =>
        if p.id == enhancedProject.id then enhancedProject else p) })

def handleSelectProfile (s : AppState) (id : String) : AppState :=
  { s with currentProfileId := some id }

def handleNewProfile (s : AppState) (freshId : String) : AppState :=
  let newProfile : Profile :=
    { id := freshId, name := DEFAULT_PROFILE_NAME ++ " " ++ toString (s.profiles.length + 1),
      resumeData := INITIAL_RESUME_DATA }
  { s with profiles := s.profiles ++ [newProfile], currentProfileId := some freshId }

def handleUpdateProfileName (s : AppState) (id newName : String) : AppState :=
  { s with profiles := s.profiles.map (fun p =>
      if p.id == id then { p with name := newName } else p) }

/-- handleDeleteProfile: refuses when a single profile exists; otherwise
removes the profiles carrying the id and, when the current profile was
removed, selects the first remaining profile (the source indexes the
filtered array at 0 without a check; the empty case cannot occur when the
profile ids are distinct). -/
def handleDeleteProfile (s : AppState) (id : String) : AppState :=
  if s.profiles.length == 1 then s
  else
    let filteredProfiles := s.profiles.filter (fun p => p.id != id)
    let s1 := { s with profiles := filteredProfiles }
    if s1.currentProfileId == some id then
      { s1 with currentProfileId := filteredProfiles.head?.map Profile.id }
    else s1

/-- handleApplySuggestion: locates the first project with the suggested
projectId; when none exists the handler returns without touching any state,
otherwise it replaces that project's enhancedResponsibilities with the
current enhanced (or, when falsy, original) responsibilities, a newline and
the suggestion text, the whole trimmed. -/
def handleApplySuggestion (s : AppState) (sugg : Suggestion) : AppState :=
  match s.currentResumeData.projects.findIdx? (fun p => p.id == sugg.projectId) with
  | none => s
  | some projectIndex =>
    updateResumeData s (fun rd =>
      { rd with projects :=
          match rd.projects.get? projectIndex with
          | none => rd.projects
          | some projectToUpdate =>
            let baseResponsibilities :=
              jsOrStr (jsOrUndefStr projectToUpdate.enhancedResponsibilities
                projectToUpdate.responsibilities) ""
            let newText := jsTrim (baseResponsibilities ++ "\n" ++ sugg.suggestion)
            rd.projects.set projectIndex
              { projectToUpdate with enhancedResponsibilities := some newText } })

/-- handleGenerateTailoredResume: the click handler of the tailoring button;
validates key and job description, then shows the length-selection modal. -/
def handleGenerateTailoredResume (s : AppState) : AppState :=
  if s.effectiveApiKey.isNone then
    { s with tailorError := some "API Key is not configured. Please enter your API Key below." }
  else if jsTrim s.jobDescription == "" then
    { s with tailorError := some "Please paste a job description to tailor your resume." }
  else
    { s with isLengthModalVisible := true }

/-- First half of startResumeGeneration, up to issuing the asynchronous
service call: closes the modal, returns early without a key, otherwise sets
the loading flag, clears the error and issues the request. -/
def startResumeGenerationBegin (s : AppState) : AppState :=
  let s1 := { s with isLengthModalVisible := false }
  match s1.effectiveApiKey with
  | none => s1
  | some _ =>
      { s1 with
          loadingTailor := true
          tailorError := none
          pendingTailor := true
          tailorRequests := s1.tailorRequests + 1 }

/-- The then-branch of startResumeGeneration: reconciles the AI-returned
records with the current projects and applies summary, skills and projects
through updateResumeData. -/
def applyTailorSuccess (s : AppState) (resp : GeminiTailoredResumeResponse) : AppState :=
  let updatedProjects := mergeTailoredProjects s.currentResumeData.projects resp.enhancedProjects
  let s1 := updateResumeData s (fun rd =>
    { rd with summary := resp.summary, skills := resp.skills, projects := updatedProjects })
  { s1 with tailorError := none }

/-- Second half of startResumeGeneration: settling of the issued request
(then / catch / finally).  A settle without a pending request has no
counterpart in the source and changes nothing. -/
def startResumeGenerationSettle (s : AppState)
    (result : Except String GeminiTailoredResumeResponse) : AppState :=
  if s.pendingTailor then
    let s1 := match result with
      | Except.ok resp => applyTailorSuccess s resp
      | Except.error msg =>
          let m := jsOrStr msg "An unexpected error occurred during resume tailoring."
          { s with tailorError := some m }
    { s1 with loadingTailor := false, pendingTailor := false }
  else s

/-- startResumeGeneration run atomically: begin, service call, settle. -/
def startResumeGeneration (s : AppState) (len : ResumeLength)
    (call : Except String GeminiTailoredResumeResponse) : AppState :=
  let s1 := startResumeGenerationBegin s
  match s.effectiveApiKey with
  | none => s1
  | some key =>
      startResumeGenerationSettle s1
        (generateTailoredResume key s.currentResumeData s.jobDescription len call)

/-- Maps each position of the list through the oracle of generated ids. -/
def mapWithIndex {α β : Type} (f : Nat → α → β) : Nat → List α → List β
  | _, [] => []
  | i, x :: xs => f i x :: mapWithIndex f (i + 1) xs

/-- handleSaveExtractedResumeData: builds a new profile from the extracted
data, generating an id for each education and project entry whose extracted
id is falsy, appends it and selects it.  The ids produced by the generator
are supplied by the oracles newProfileId, eduIds and projIds. -/
def handleSaveExtractedResumeData (s : AppState) (extractedData : ResumeExtractionResponse)
    (newProfileId : String) (eduIds projIds : Nat → String) : AppState :=
  let newResumeData : ResumeData :=
    { personalInfo := extractedData.personalInfo,
      education := mapWithIndex
        (fun i edu => { edu with id := jsOrStr edu.id (eduIds i) }) 0 extractedData.education,
      projects := mapWithIndex
        (fun i proj => Project.toEnhanced { proj with id := jsOrStr proj.id (projIds i) })
        0 extractedData.projects,
      summary := extractedData.summary,
      skills := extractedData.skills }
  let newProfile : Profile :=
    { id := newProfileId, name := UPLOADED_PROFILE_NAME, resumeData := newResumeData }
  { s with
      profiles := s.profiles ++ [newProfile]
      currentProfileId := some newProfileId
      currentResumeData := newResumeData
      showResumeUploadModal := false }

def handleSaveApiKey (s : AppState) : AppState :=
  let trimmedKey := jsTrim s.manualApiKey
  if trimmedKey != "" then
    { s with
        storage := { s.storage with geminiApiKey := some trimmedKey }
        effectiveApiKey := some trimmedKey
        aiKeyError := none }
  else
    { s with
        storage := { s.storage with geminiApiKey := none }
        effectiveApiKey := none
        aiKeyError := some apiKeyMissingMessage }

/-! ## Initialization (the mount effect of App) -/

/-- Profile-loading part of the mount effect: loads the stored profile
list when present and nonempty (preferring the last selected profile),
otherwise creates and persists a default profile.
parsedProfiles stands for the JSON.parse outcome of the stored
resumeProfiles entry (none when the entry is absent, empty or unparsed)
and freshId for the id generated for a default profile. -/
def initProfilesState (storage0 : Storage) (parsedProfiles : Option (List Profile))
    (freshId : String) : AppState :=
  let base : AppState :=
    { profiles := [], currentProfileId := none,
      currentResumeData := INITIAL_RESUME_DATA, manualApiKey := "",
      effectiveApiKey := none, aiKeyError := none, jobDescription := "",
      loadingTailor := false, tailorError := none,
      isLengthModalVisible := false, showResumeUploadModal := false,
      storage := storage0, pendingTailor := false, tailorRequests := 0 }
  let withDefault : AppState :=
    let newProfile : Profile :=
      { id := freshId, name := DEFAULT_PROFILE_NAME, resumeData := INITIAL_RESUME_DATA }
    let storage1 : Storage :=
      { storage0 with
          resumeProfiles := some (serializeProfiles [newProfile])
          lastSelectedProfileId := some newProfile.id }
    { base with
        profiles := [newProfile]
        currentProfileId := some newProfile.id
        currentResumeData := newProfile.resumeData
        storage := storage1 }
  let s1 : AppState :=
    match parsedProfiles with
    | some (p0 :: rest) =>
        let parsed : List Profile := p0 :: rest
        let profileToLoad : Profile :=
          match storage0.lastSelectedProfileId with
          | some lastId =>
              match parsed.find? (fun p => p.id == lastId) with
              | some foundProfile => foundProfile
              | none => p0
          | none => p0
        { base with
            profiles := parsed
            currentProfileId := some profileToLoad.id
            currentResumeData := profileToLoad.resumeData }
    | some [] => withDefault
    | none => withDefault
  s1

/-- Key-loading part of the mount effect: a non-empty stored key wins,
otherwise the environment key (envKey stands for process.env.API_KEY when
that is a non-empty string, none otherwise). -/
def initApplyStoredKey (storage0 : Storage) (envKey : Option String)
    (s1 : AppState) : AppState :=
  match storage0.geminiApiKey with
  | some storedKey =>
      if storedKey != "" then
        { s1 with effectiveApiKey := some storedKey, manualApiKey := storedKey }
      else
        { s1 with effectiveApiKey := envKey }
  | none => { s1 with effectiveApiKey := envKey }

/-- initApp: the state after the first render (the mount effect) and the
effect bodies that run with it. -/
def initApp (storage0 : Storage) (parsedProfiles : Option (List Profile))
    (envKey : Option String) (freshId : String) : AppState :=
  runEffects (initApplyStoredKey storage0 envKey
    (initProfilesState storage0 parsedProfiles freshId))

/-! ## Helper lemmas on mapWithIndex -/

theorem mapWithIndex_getElem? {α β : Type} (f : Nat → α → β) :
    ∀ (l : List α) (k i : Nat), (mapWithIndex f k l)[i]? = Option.map (f (k + i)) l[i]? := by
  intro l
  induction l with
  | nil => intro k i; simp [mapWithIndex]
  | cons x xs ih =>
    intro k i
    cases i with
    | zero => simp [mapWithIndex]
    | succ n =>
      have h : k + (n + 1) = (k + 1) + n := by omega
      simp [mapWithIndex, h, ih (k + 1) n]

theorem mapWithIndex_length {α β : Type} (f : Nat → α → β) :
    ∀ (l : List α) (k : Nat), (mapWithIndex f k l).length = l.length := by
  intro l
  induction l with
  | nil => intro k; rfl
  | cons x xs ih => intro k; simp [mapWithIndex, ih (k + 1)]

theorem mapWithIndex_mem {α β : Type} (f : Nat → α → β) (l : List α) (b : β)
    (hb : b ∈ mapWithIndex f 0 l) : ∃ i a, l[i]? = some a ∧ b = f i a := by
  rcases List.mem_iff_getElem?.mp hb with ⟨i, hi⟩
  rw [mapWithIndex_getElem?] at hi
  rcases Option.map_eq_some'.mp hi with ⟨a, ha, hfa⟩
  exact ⟨i, a, ha, by rw [← hfa]; simp⟩

/-! ## Sample states used for concrete evaluations -/

def sampleProfile : Profile :=
  { id := "prof1", name := "Main", resumeData := INITIAL_RESUME_DATA }

def sampleResumeDataA : ResumeData :=
  { personalInfo := INITIAL_PERSONAL_INFO, education := [INITIAL_EDUCATION],
    projects := [sampleProjectA], summary := "sum", skills := ["sk"] }

def sampleState : AppState :=
  { profiles := [{ sampleProfile with resumeData := sampleResumeDataA }],
    currentProfileId := some "prof1",
    currentResumeData := sampleResumeDataA, manualApiKey := "",
    effectiveApiKey := some "k", aiKeyError := none, jobDescription := "jd",
    loadingTailor := false, tailorError := none, isLengthModalVisible := true,
    showResumeUploadModal := false, storage := {}, pendingTailor := false,
    tailorRequests := 0 }

/-! ## Claims C3, C5, C7, C10 -/

/-- C3: when the service call underlying a tailoring request fails, the
operation leaves the profile list and the current resume data completely
unchanged, stores the error message (or the fallback text when the thrown
message is empty) in tailorError, and clears the loading flag. -/
theorem claim_C3 (s : AppState) (key : String) (len : ResumeLength)
    (call : Except String GeminiTailoredResumeResponse) (m : String)
    (hkey : s.effectiveApiKey = some key)
    (hfail : generateTailoredResume key s.currentResumeData s.jobDescription len call
      = Except.error m) :
    (startResumeGeneration s len call).profiles = s.profiles ∧
    (startResumeGeneration s len call).currentResumeData = s.currentResumeData ∧
    (startResumeGeneration s len call).tailorError
      = some (jsOrStr m "An unexpected error occurred during resume tailoring.") ∧
    (startResumeGeneration s len call).loadingTailor = false := by
  have h1 : startResumeGeneration s len call
      = startResumeGenerationSettle (startResumeGenerationBegin s) (Except.error m) := by
    unfold startResumeGeneration
    rw [hkey]
    exact congrArg (startResumeGenerationSettle (startResumeGenerationBegin s)) hfail
  rw [h1]
  simp [startResumeGenerationBegin, startResumeGenerationSettle, hkey]

/-- C3 witness: a concrete state with a configured key and a failing call. -/
theorem claim_C3_witness :
    (startResumeGeneration sampleState ResumeLength.onePage (Except.error "boom")).profiles
      = sampleState.profiles ∧
    (startResumeGeneration sampleState ResumeLength.onePage (Except.error "boom")).currentResumeData
      = sampleState.currentResumeData ∧
    (startResumeGeneration sampleState ResumeLength.onePage (Except.error "boom")).tailorError
      = some (jsOrStr "Failed to generate tailored resume. Details: boom"
          "An unexpected error occurred during resume tailoring.") ∧
    (startResumeGeneration sampleState ResumeLength.onePage (Except.error "boom")).loadingTailor
      = false :=
  claim_C3 sampleState "k" ResumeLength.onePage (Except.error "boom")
    "Failed to generate tailored resume. Details: boom" rfl (by rfl)

/-- C5: updating a single project (education) entry replaces exactly the
entries carrying the updated record's id, preserving the list's length,
order and ids, and leaves every other resume field untouched. -/
theorem claim_C5 (s : AppState) (updatedProject : EnhancedProject) (updatedEdu : Education) :
    ((handleUpdateProject s updatedProject).currentResumeData.projects.length
        = s.currentResumeData.projects.length ∧
      ((handleUpdateProject s updatedProject).currentResumeData.projects.map EnhancedProject.id)
        = s.currentResumeData.projects.map EnhancedProject.id ∧
      (∀ (i : Nat) (proj : EnhancedProject), s.currentResumeData.projects[i]? = some proj →
        (proj.id = updatedProject.id →
          (handleUpdateProject s updatedProject).currentResumeData.projects[i]?
            = some updatedProject) ∧
        (proj.id ≠ updatedProject.id →
          (handleUpdateProject s updatedProject).currentResumeData.projects[i]?
            = some proj)) ∧
      (handleUpdateProject s updatedProject).currentResumeData.personalInfo
        = s.currentResumeData.personalInfo ∧
      (handleUpdateProject s updatedProject).currentResumeData.summary
        = s.currentResumeData.summary ∧
      (handleUpdateProject s updatedProject).currentResumeData.skills
        = s.currentResumeData.skills ∧
      (handleUpdateProject s updatedProject).currentResumeData.education
        = s.currentResumeData.education) ∧
    ((handleUpdateEducation s updatedEdu).currentResumeData.education.length
        = s.currentResumeData.education.length ∧
      ((handleUpdateEducation s updatedEdu).currentResumeData.education.map Education.id)
        = s.currentResumeData.education.map Education.id ∧
      (∀ (i : Nat) (edu : Education), s.currentResumeData.education[i]? = some edu →
        (edu.id = updatedEdu.id →
          (handleUpdateEducation s updatedEdu).currentResumeData.education[i]?
            = some updatedEdu) ∧
        (edu.id ≠ updatedEdu.id →
          (handleUpdateEducation s updatedEdu).currentResumeData.education[i]?
            = some edu)) ∧
      (handleUpdateEducation s updatedEdu).currentResumeData.personalInfo
        = s.currentResumeData.personalInfo ∧
      (handleUpdateEducation s updatedEdu).currentResumeData.summary
        = s.currentResumeData.summary ∧
      (handleUpdateEducation s updatedEdu).currentResumeData.skills
        = s.currentResumeData.skills ∧
      (handleUpdateEducation s updatedEdu).currentResumeData.projects
        = s.currentResumeData.projects) := by
  constructor
  · refine ⟨by simp [handleUpdateProject, updateResumeData], ?_, ?_,
      by simp [handleUpdateProject, updateResumeData],
      by simp [handleUpdateProject, updateResumeData],
      by simp [handleUpdateProject, updateResumeData],
      by simp [handleUpdateProject, updateResumeData]⟩
    · simp only [handleUpdateProject, updateResumeData, List.map_map]
      apply List.map_congr_left
      intro a _
      by_cases h : a.id = updatedProject.id
      · simp [h]
      · simp [h]
    · intro i proj hget
      constructor
      · intro hid
        simp [handleUpdateProject, updateResumeData, List.getElem?_map, hget, hid]
      · intro hid
        simp [handleUpdateProject, updateResumeData, List.getElem?_map, hget, hid]
  · refine ⟨by simp [handleUpdateEducation, updateResumeData], ?_, ?_,
      by simp [handleUpdateEducation, updateResumeData],
      by simp [handleUpdateEducation, updateResumeData],
      by simp [handleUpdateEducation, updateResumeData],
      by simp [handleUpdateEducation, updateResumeData]⟩
    · simp only [handleUpdateEducation, updateResumeData, List.map_map]
      apply List.map_congr_left
      intro a _
      by_cases h : a.id = updatedEdu.id
      · simp [h]
      · simp [h]
    · intro i edu hget
      constructor
      · intro hid
        simp [handleUpdateEducation, updateResumeData, List.getElem?_map, hget, hid]
      · intro hid
        simp [handleUpdateEducation, updateResumeData, List.getElem?_map, hget, hid]

/-- C5 witness: the project entry carrying the updated id is replaced and the
education list survives, at a concrete one-project state. -/
theorem claim_C5_witness :
    (handleUpdateProject sampleState sampleAiA).currentResumeData.projects[0]?
      = some sampleAiA ∧
    (handleUpdateProject sampleState sampleAiA).currentResumeData.education
      = sampleState.currentResumeData.education :=
  ⟨((claim_C5 sampleState sampleAiA INITIAL_EDUCATION).1.2.2.1 0 sampleProjectA rfl).1 rfl,
    (claim_C5 sampleState sampleAiA INITIAL_EDUCATION).1.2.2.2.2.2.2⟩

/-- C7: saving an extracted resume appends exactly one profile, named
Uploaded Resume, whose education and project entries all carry non-empty
ids (a generated id exactly when the extracted id is empty, all other
fields copied), leaves every existing profile unchanged and selects the new
profile. -/
theorem claim_C7 (s : AppState) (extractedData : ResumeExtractionResponse)
    (newProfileId : String) (eduIds projIds : Nat → String)
    (hpid : newProfileId ≠ "") (hedu : ∀ i, eduIds i ≠ "") (hproj : ∀ i, projIds i ≠ "") :
    ∃ np : Profile,
      (handleSaveExtractedResumeData s extractedData newProfileId eduIds projIds).profiles
        = s.profiles ++ [np] ∧
      np.id = newProfileId ∧ np.id ≠ "" ∧ np.name = UPLOADED_PROFILE_NAME ∧
      (∀ e ∈ np.resumeData.education, e.id ≠ "") ∧
      (∀ p ∈ np.resumeData.projects, p.id ≠ "") ∧
      np.resumeData.education.length = extractedData.education.length ∧
      np.resumeData.projects.length = extractedData.projects.length ∧
      (∀ (i : Nat) (e : Education), extractedData.education[i]? = some e →
        np.resumeData.education[i]?
          = some (if e.id = "" then { e with id := eduIds i } else e)) ∧
      (∀ (i : Nat) (p : Project), extractedData.projects[i]? = some p →
        np.resumeData.projects[i]?
          = some (Project.toEnhanced (if p.id = "" then { p with id := projIds i } else p))) ∧
      np.resumeData.personalInfo = extractedData.personalInfo ∧
      np.resumeData.summary = extractedData.summary ∧
      np.resumeData.skills = extractedData.skills ∧
      (handleSaveExtractedResumeData s extractedData newProfileId eduIds projIds).currentProfileId
        = some newProfileId ∧
      (handleSaveExtractedResumeData s extractedData newProfileId eduIds projIds).currentResumeData
        = np.resumeData := by
  refine ⟨_, rfl, rfl, hpid, rfl, ?_, ?_, mapWithIndex_length _ _ 0, mapWithIndex_length _ _ 0,
    ?_, ?_, rfl, rfl, rfl, rfl, rfl⟩
  · intro e he
    rcases mapWithIndex_mem _ _ _ he with ⟨i, a, _, hea⟩
    rw [hea]
    by_cases h : a.id = ""
    · simp [jsOrStr, h, hedu i]
    · simp [jsOrStr, h]
  · intro p hp
    rcases mapWithIndex_mem _ _ _ hp with ⟨i, a, _, hpa⟩
    rw [hpa]
    by_cases h : a.id = ""
    · simp [jsOrStr, Project.toEnhanced, h, hproj i]
    · simp [jsOrStr, Project.toEnhanced, h]
  · intro i e hget
    rw [mapWithIndex_getElem?, hget]
    by_cases h : e.id = ""
    · simp [jsOrStr, h]
    · simp [jsOrStr, h]
  · intro i p hget
    rw [mapWithIndex_getElem?, hget]
    by_cases h : p.id = ""
    · simp [jsOrStr, h]
    · simp [jsOrStr, h]

/-- C7 witness: a concrete extraction with one education entry with an empty
id and one project entry with a non-empty id. -/
theorem claim_C7_witness :
    ∃ np : Profile,
      (handleSaveExtractedResumeData sampleState
          { personalInfo := INITIAL_PERSONAL_INFO,
            education := [{ INITIAL_EDUCATION with id := "" }],
            projects := [INITIAL_PROJECT], summary := "s", skills := [] }
          "fresh1" (fun _ => "gen-e") (fun _ => "gen-p")).profiles
        = sampleState.profiles ++ [np] ∧
      np.id = "fresh1" ∧ np.id ≠ "" ∧ np.name = UPLOADED_PROFILE_NAME ∧
      (∀ e ∈ np.resumeData.education, e.id ≠ "") ∧
      (∀ p ∈ np.resumeData.projects, p.id ≠ "") := by
  rcases claim_C7 sampleState
      { personalInfo := INITIAL_PERSONAL_INFO,
        education := [{ INITIAL_EDUCATION with id := "" }],
        projects := [INITIAL_PROJECT], summary := "s", skills := [] }
      "fresh1" (fun _ => "gen-e") (fun _ => "gen-p")
      (by decide) (fun _ => by show "gen-e" ≠ ""; decide)
      (fun _ => by show "gen-p" ≠ ""; decide) with
    ⟨np, h1, h2, h3, h4, h5, h6, _⟩
  exact ⟨np, h1, h2, h3, h4, h5, h6⟩

/-- C10: applying a match-analysis suggestion whose projectId matches no
project leaves the whole state unchanged; with a matching projectId it
updates only the first matching project, replacing its
enhancedResponsibilities with the previous enhanced (or, when absent or
empty, original) responsibilities, a newline and the suggestion, trimmed,
and leaves every other entry and resume field unchanged. -/
theorem claim_C10 (s : AppState) (sugg : Suggestion) :
    ((∀ p ∈ s.currentResumeData.projects, p.id ≠ sugg.projectId) →
      handleApplySuggestion s sugg = s) ∧
    (∀ (i : Nat) (p : EnhancedProject),
      s.currentResumeData.projects.findIdx? (fun q => q.id == sugg.projectId) = some i →
      s.currentResumeData.projects[i]? = some p →
      (handleApplySuggestion s sugg).currentResumeData.projects[i]?
        = some { p with
            enhancedResponsibilities := some (jsTrim
              ((jsOrStr (jsOrUndefStr p.enhancedResponsibilities p.responsibilities) "")
                ++ "\n" ++ sugg.suggestion)) } ∧
      (∀ j, j ≠ i →
        (handleApplySuggestion s sugg).currentResumeData.projects[j]?
          = s.currentResumeData.projects[j]?) ∧
      (handleApplySuggestion s sugg).currentResumeData.projects.length
        = s.currentResumeData.projects.length ∧
      (handleApplySuggestion s sugg).currentResumeData.personalInfo
        = s.currentResumeData.personalInfo ∧
      (handleApplySuggestion s sugg).currentResumeData.education
        = s.currentResumeData.education ∧
      (handleApplySuggestion s sugg).currentResumeData.summary
        = s.currentResumeData.summary ∧
      (handleApplySuggestion s sugg).currentResumeData.skills
        = s.currentResumeData.skills) := by
  constructor
  · intro hno
    have hfind : s.currentResumeData.projects.findIdx? (fun q => q.id == sugg.projectId)
        = none := by
      rw [List.findIdx?_eq_none_iff]
      intro x hx
      simp [hno x hx]
    unfold handleApplySuggestion
    rw [hfind]
  · intro i p hfind hget
    have hlt : i < s.currentResumeData.projects.length := by
      rcases List.findIdx?_eq_some_iff_getElem.mp hfind with ⟨h, _⟩
      exact h
    have hget' : s.currentResumeData.projects.get? i = some p := by
      rw [List.get?_eq_getElem?]
      exact hget
    unfold handleApplySuggestion
    rw [hfind]
    simp only [updateResumeData, hget']
    refine ⟨?_, ?_, by simp, by trivial, by trivial, by trivial, by trivial⟩
    · exact List.getElem?_set_self (by simpa using hlt)
    · intro j hj
      exact List.getElem?_set_ne (fun h => hj h.symm)

/-- C10 witness: a concrete suggestion applied to a one-project state whose
project carries a previously saved enhanced responsibilities text. -/
theorem claim_C10_witness :
    (handleApplySuggestion sampleState
        { projectId := "p1", projectName := "n", suggestion := "add X" }).currentResumeData.projects[0]?
      = some { sampleProjectA with
          enhancedResponsibilities := some (jsTrim
            ((jsOrStr (jsOrUndefStr sampleProjectA.enhancedResponsibilities
                sampleProjectA.responsibilities) "")
              ++ "\n" ++ "add X")) } :=
  ((claim_C10 sampleState
      { projectId := "p1", projectName := "n", suggestion := "add X" }).2 0 sampleProjectA
    (by decide) rfl).1

/-! ## User-level actions and the step relation

Each user-visible interaction of the App component is one action; a step
runs the corresponding handler and then the effect bodies.  Actions only
reachable through a disabled control or an unmounted component (a disabled
button, a closed modal) leave the state unchanged, mirroring the DOM
semantics of disabled buttons and conditional rendering. -/

/-- Disabled state shared by the two action buttons:
no configured key or blank job description. -/
def actionButtonDisabled (s : AppState) : Bool :=
  !s.effectiveApiKey.isSome || jsTrim s.jobDescription == ""

/-- Disabled state of the Generate Tailored Resume button. -/
def tailorButtonDisabled (s : AppState) : Bool :=
  actionButtonDisabled s || s.loadingTailor

inductive Action where
  | selectProfile (id : String)
  | newProfile (freshId : String)
  | updateProfileName (id newName : String)
  | deleteProfile (id : String)
  | updateEducation (edu : Education)
  | addEducation (freshId : String)
  | removeEducation (id : String)
  | updateProject (proj : EnhancedProject)
  | addProject (freshId : String)
  | removeProject (id : String)
  | saveEnhancedProject (proj : EnhancedProject)
  | applySuggestion (sugg : Suggestion)
  | setJobDescription (text : String)
  | setManualApiKey (text : String)
  | saveApiKey
  | clickGenerateTailored
  | closeLengthModal
  | selectResumeLength (len : ResumeLength)
  | settleTailor (result : Except String GeminiTailoredResumeResponse)
  | openResumeUploadModal
  | closeResumeUploadModal
  | saveExtracted (data : ResumeExtractionResponse) (newProfileId : String)
      (eduIds projIds : Nat → String)

def dispatch (s : AppState) : Action → AppState
  | Action.selectProfile id =>
      if s.profiles.any (fun p => p.id == id) then handleSelectProfile s id else s
  | Action.newProfile freshId => handleNewProfile s freshId
  | Action.updateProfileName id newName => handleUpdateProfileName s id newName
  | Action.deleteProfile id =>
      if s.profiles.any (fun p => p.id == id) then handleDeleteProfile s id else s
  | Action.updateEducation edu => handleUpdateEducation s edu
  | Action.addEducation freshId => handleAddEducation s freshId
  | Action.removeEducation id => handleRemoveEducation s id
  | Action.updateProject proj => handleUpdateProject s proj
  | Action.addProject freshId => handleAddProject s freshId
  | Action.removeProject id => handleRemoveProject s id
  | Action.saveEnhancedProject proj => handleSaveEnhancedProject s proj
  | Action.applySuggestion sugg => handleApplySuggestion s sugg
  | Action.setJobDescription text => { s with jobDescription := text }
  | Action.setManualApiKey text => { s with manualApiKey := text }
  | Action.saveApiKey => handleSaveApiKey s
  | Action.clickGenerateTailored =>
      if tailorButtonDisabled s then s else handleGenerateTailoredResume s
  | Action.closeLengthModal =>
      if s.isLengthModalVisible then { s with isLengthModalVisible := false } else s
  | Action.selectResumeLength _ =>
      if s.isLengthModalVisible then startResumeGenerationBegin s else s
  | Action.settleTailor result => startResumeGenerationSettle s result
  | Action.openResumeUploadModal => { s with showResumeUploadModal := true }
  | Action.closeResumeUploadModal => { s with showResumeUploadModal := false }
  | Action.saveExtracted data newProfileId eduIds projIds =>
      if s.showResumeUploadModal then
        handleSaveExtractedResumeData s data newProfileId eduIds projIds
      else s

def step (s : AppState) (a : Action) : AppState :=
  runEffects (dispatch s a)

/-- Side condition idealising the random id generator: an id generated for
a new profile does not collide with an existing profile id. -/
def FreshIdsOk (s : AppState) : Action → Prop
  | Action.newProfile freshId => ∀ p ∈ s.profiles, p.id ≠ freshId
  | Action.saveExtracted _ newProfileId _ _ => ∀ p ∈ s.profiles, p.id ≠ newProfileId
  | _ => True

/-- States reachable from a mount of the App component through user steps.
The initial stored profile list is required to have distinct ids (it is
normally this application's own serialization) and generated profile ids
are required to be fresh. -/
inductive Reachable : AppState → Prop where
  | init (storage0 : Storage) (parsedProfiles : Option (List Profile))
      (envKey : Option String) (freshId : String)
      (hnd : ∀ l, parsedProfiles = some l → (l.map Profile.id).Nodup) :
      Reachable (initApp storage0 parsedProfiles envKey freshId)
  | next (s : AppState) (a : Action) (hs : Reachable s) (hfresh : FreshIdsOk s a) :
      Reachable (step s a)

/-! ## Effect-body field lemmas -/

@[simp] theorem persist_profiles (s : AppState) :
    (runPersistenceEffect s).profiles = s.profiles := by
  unfold runPersistenceEffect; cases s.currentProfileId <;> rfl

@[simp] theorem persist_currentProfileId (s : AppState) :
    (runPersistenceEffect s).currentProfileId = s.currentProfileId := by
  unfold runPersistenceEffect; cases s.currentProfileId <;> rfl

@[simp] theorem persist_currentResumeData (s : AppState) :
    (runPersistenceEffect s).currentResumeData = s.currentResumeData := by
  unfold runPersistenceEffect; cases s.currentProfileId <;> rfl

@[simp] theorem persist_pendingTailor (s : AppState) :
    (runPersistenceEffect s).pendingTailor = s.pendingTailor := by
  unfold runPersistenceEffect; cases s.currentProfileId <;> rfl

@[simp] theorem persist_loadingTailor (s : AppState) :
    (runPersistenceEffect s).loadingTailor = s.loadingTailor := by
  unfold runPersistenceEffect; cases s.currentProfileId <;> rfl

@[simp] theorem persist_isLengthModalVisible (s : AppState) :
    (runPersistenceEffect s).isLengthModalVisible = s.isLengthModalVisible := by
  unfold runPersistenceEffect; cases s.currentProfileId <;> rfl

@[simp] theorem persist_showResumeUploadModal (s : AppState) :
    (runPersistenceEffect s).showResumeUploadModal = s.showResumeUploadModal := by
  unfold runPersistenceEffect; cases s.currentProfileId <;> rfl

@[simp] theorem persist_effectiveApiKey (s : AppState) :
    (runPersistenceEffect s).effectiveApiKey = s.effectiveApiKey := by
  unfold runPersistenceEffect; cases s.currentProfileId <;> rfl

@[simp] theorem persist_jobDescription (s : AppState) :
    (runPersistenceEffect s).jobDescription = s.jobDescription := by
  unfold runPersistenceEffect; cases s.currentProfileId <;> rfl

@[simp] theorem persist_tailorRequests (s : AppState) :
    (runPersistenceEffect s).tailorRequests = s.tailorRequests := by
  unfold runPersistenceEffect; cases s.currentProfileId <;> rfl

@[simp] theorem persist_resumeProfiles (s : AppState) :
    (runPersistenceEffect s).storage.resumeProfiles
      = some (serializeProfiles s.profiles) := by
  unfold runPersistenceEffect; cases s.currentProfileId <;> rfl

theorem persist_lastSelected_of (s : AppState) (cid : String)
    (h : s.currentProfileId = some cid) :
    (runPersistenceEffect s).storage.lastSelectedProfileId = some cid := by
  unfold runPersistenceEffect; rw [h]

@[simp] theorem sync_profiles (s : AppState) :
    (runSyncCurrentProfileEffect s).profiles = s.profiles := by
  unfold runSyncCurrentProfileEffect
  cases h : s.profiles.find? (fun p => some p.id == s.currentProfileId) <;> simp [h]

@[simp] theorem sync_currentProfileId (s : AppState) :
    (runSyncCurrentProfileEffect s).currentProfileId = s.currentProfileId := by
  unfold runSyncCurrentProfileEffect
  cases h : s.profiles.find? (fun p => some p.id == s.currentProfileId) <;> simp [h]

@[simp] theorem sync_storage (s : AppState) :
    (runSyncCurrentProfileEffect s).storage = s.storage := by
  unfold runSyncCurrentProfileEffect
  cases h : s.profiles.find? (fun p => some p.id == s.currentProfileId) <;> simp [h]

@[simp] theorem sync_pendingTailor (s : AppState) :
    (runSyncCurrentProfileEffect s).pendingTailor = s.pendingTailor := by
  unfold runSyncCurrentProfileEffect
  cases h : s.profiles.find? (fun p => some p.id == s.currentProfileId) <;> simp [h]

@[simp] theorem sync_loadingTailor (s : AppState) :
    (runSyncCurrentProfileEffect s).loadingTailor = s.loadingTailor := by
  unfold runSyncCurrentProfileEffect
  cases h : s.profiles.find? (fun p => some p.id == s.currentProfileId) <;> simp [h]

@[simp] theorem sync_isLengthModalVisible (s : AppState) :
    (runSyncCurrentProfileEffect s).isLengthModalVisible = s.isLengthModalVisible := by
  unfold runSyncCurrentProfileEffect
  cases h : s.profiles.find? (fun p => some p.id == s.currentProfileId) <;> simp [h]

@[simp] theorem sync_showResumeUploadModal (s : AppState) :
    (runSyncCurrentProfileEffect s).showResumeUploadModal = s.showResumeUploadModal := by
  unfold runSyncCurrentProfileEffect
  cases h : s.profiles.find? (fun p => some p.id == s.currentProfileId) <;> simp [h]

@[simp] theorem sync_effectiveApiKey (s : AppState) :
    (runSyncCurrentProfileEffect s).effectiveApiKey = s.effectiveApiKey := by
  unfold runSyncCurrentProfileEffect
  cases h : s.profiles.find? (fun p => some p.id == s.currentProfileId) <;> simp [h]

@[simp] theorem sync_jobDescription (s : AppState) :
    (runSyncCurrentProfileEffect s).jobDescription = s.jobDescription := by
  unfold runSyncCurrentProfileEffect
  cases h : s.profiles.find? (fun p => some p.id == s.currentProfileId) <;> simp [h]

@[simp] theorem sync_tailorRequests (s : AppState) :
    (runSyncCurrentProfileEffect s).tailorRequests = s.tailorRequests := by
  unfold runSyncCurrentProfileEffect
  cases h : s.profiles.find? (fun p => some p.id == s.currentProfileId) <;> simp [h]

@[simp] theorem apiKeyErr_profiles (s : AppState) :
    (runApiKeyErrorEffect s).profiles = s.profiles := by
  unfold runApiKeyErrorEffect; split <;> rfl

@[simp] theorem apiKeyErr_currentProfileId (s : AppState) :
    (runApiKeyErrorEffect s).currentProfileId = s.currentProfileId := by
  unfold runApiKeyErrorEffect; split <;> rfl

@[simp] theorem apiKeyErr_currentResumeData (s : AppState) :
    (runApiKeyErrorEffect s).currentResumeData = s.currentResumeData := by
  unfold runApiKeyErrorEffect; split <;> rfl

@[simp] theorem apiKeyErr_storage (s : AppState) :
    (runApiKeyErrorEffect s).storage = s.storage := by
  unfold runApiKeyErrorEffect; split <;> rfl

@[simp] theorem apiKeyErr_pendingTailor (s : AppState) :
    (runApiKeyErrorEffect s).pendingTailor = s.pendingTailor := by
  unfold runApiKeyErrorEffect; split <;> rfl

@[simp] theorem apiKeyErr_loadingTailor (s : AppState) :
    (runApiKeyErrorEffect s).loadingTailor = s.loadingTailor := by
  unfold runApiKeyErrorEffect; split <;> rfl

@[simp] theorem apiKeyErr_isLengthModalVisible (s : AppState) :
    (runApiKeyErrorEffect s).isLengthModalVisible = s.isLengthModalVisible := by
  unfold runApiKeyErrorEffect; split <;> rfl

@[simp] theorem apiKeyErr_showResumeUploadModal (s : AppState) :
    (runApiKeyErrorEffect s).showResumeUploadModal = s.showResumeUploadModal := by
  unfold runApiKeyErrorEffect; split <;> rfl

@[simp] theorem apiKeyErr_effectiveApiKey (s : AppState) :
    (runApiKeyErrorEffect s).effectiveApiKey = s.effectiveApiKey := by
  unfold runApiKeyErrorEffect; split <;> rfl

@[simp] theorem apiKeyErr_jobDescription (s : AppState) :
    (runApiKeyErrorEffect s).jobDescription = s.jobDescription := by
  unfold runApiKeyErrorEffect; split <;> rfl

@[simp] theorem apiKeyErr_tailorRequests (s : AppState) :
    (runApiKeyErrorEffect s).tailorRequests = s.tailorRequests := by
  unfold runApiKeyErrorEffect; split <;> rfl

@[simp] theorem runEffects_profiles (s : AppState) :
    (runEffects s).profiles = s.profiles := by simp [runEffects]

@[simp] theorem runEffects_currentProfileId (s : AppState) :
    (runEffects s).currentProfileId = s.currentProfileId := by simp [runEffects]

@[simp] theorem runEffects_pendingTailor (s : AppState) :
    (runEffects s).pendingTailor = s.pendingTailor := by simp [runEffects]

@[simp] theorem runEffects_loadingTailor (s : AppState) :
    (runEffects s).loadingTailor = s.loadingTailor := by simp [runEffects]

@[simp] theorem runEffects_isLengthModalVisible (s : AppState) :
    (runEffects s).isLengthModalVisible = s.isLengthModalVisible := by simp [runEffects]

@[simp] theorem runEffects_showResumeUploadModal (s : AppState) :
    (runEffects s).showResumeUploadModal = s.showResumeUploadModal := by simp [runEffects]

@[simp] theorem runEffects_effectiveApiKey (s : AppState) :
    (runEffects s).effectiveApiKey = s.effectiveApiKey := by simp [runEffects]

@[simp] theorem runEffects_jobDescription (s : AppState) :
    (runEffects s).jobDescription = s.jobDescription := by simp [runEffects]

@[simp] theorem runEffects_tailorRequests (s : AppState) :
    (runEffects s).tailorRequests = s.tailorRequests := by simp [runEffects]

@[simp] theorem runEffects_resumeProfiles (s : AppState) :
    (runEffects s).storage.resumeProfiles = some (serializeProfiles s.profiles) := by
  simp [runEffects]

theorem runEffects_lastSelected_of (s : AppState) (cid : String)
    (h : s.currentProfileId = some cid) :
    (runEffects s).storage.lastSelectedProfileId = some cid := by
  have := persist_lastSelected_of s cid h
  simp [runEffects, this]

/-! ## Invariants of the application state -/

/-- Invariant maintained by every handler: the profile list is nonempty
with distinct ids, the selection refers to an existing profile, and an
in-flight tailoring request implies the loading flag is set and the
length-selection modal is closed. -/
def CoreInv (s : AppState) : Prop :=
  s.profiles ≠ [] ∧
  (s.profiles.map Profile.id).Nodup ∧
  (∃ cid, s.currentProfileId = some cid ∧ cid ∈ s.profiles.map Profile.id) ∧
  (s.pendingTailor = true → s.loadingTailor = true ∧ s.isLengthModalVisible = false)

/-- Full invariant: the core invariant together with the local-storage
synchronisation established by the persistence effect. -/
def AppInv (s : AppState) : Prop :=
  CoreInv s ∧
  s.storage.resumeProfiles = some (serializeProfiles s.profiles) ∧
  (∀ cid, s.currentProfileId = some cid → s.storage.lastSelectedProfileId = some cid)

theorem updateResumeData_map_id (s : AppState) (u : ResumeData → ResumeData) :
    ((updateResumeData s u).profiles.map Profile.id) = s.profiles.map Profile.id := by
  unfold updateResumeData
  dsimp only
  rw [List.map_map]
  apply List.map_congr_left
  intro p _
  dsimp only [Function.comp]
  split <;> rfl

theorem updateResumeData_core (s : AppState) (u : ResumeData → ResumeData)
    (h : CoreInv s) : CoreInv (updateResumeData s u) := by
  obtain ⟨hne, hnd, ⟨cid, hcid, hmem⟩, hpend⟩ := h
  refine ⟨?_, ?_, ⟨cid, hcid, ?_⟩, hpend⟩
  · intro hmap
    have h0 : (updateResumeData s u).profiles.map Profile.id = [] := by rw [hmap]; rfl
    rw [updateResumeData_map_id] at h0
    exact hne (List.map_eq_nil_iff.mp h0)
  · rw [updateResumeData_map_id]; exact hnd
  · rw [updateResumeData_map_id]; exact hmem

theorem coreInv_transport (t s : AppState)
    (hp : t.profiles = s.profiles) (hc : t.currentProfileId = s.currentProfileId)
    (hpd : t.pendingTailor = s.pendingTailor) (hl : t.loadingTailor = s.loadingTailor)
    (hm : t.isLengthModalVisible = s.isLengthModalVisible)
    (h : CoreInv s) : CoreInv t := by
  unfold CoreInv
  rw [hp, hc, hpd, hl, hm]
  exact h

theorem core_step (s : AppState) (a : Action) (h : CoreInv s) (hfresh : FreshIdsOk s a) :
    CoreInv (dispatch s a) := by
  obtain ⟨hne, hnd, ⟨cid, hcid, hmem⟩, hpend⟩ := h
  cases a with
  | selectProfile id =>
      dsimp only [dispatch]
      by_cases hany : s.profiles.any (fun p => p.id == id) = true
      · rw [if_pos hany]
        refine ⟨hne, hnd, ⟨id, rfl, ?_⟩, hpend⟩
        rcases List.any_eq_true.mp hany with ⟨p, hp, hpid⟩
        exact List.mem_map.mpr ⟨p, hp, beq_iff_eq.mp hpid⟩
      · rw [if_neg hany]
        exact ⟨hne, hnd, ⟨cid, hcid, hmem⟩, hpend⟩
  | newProfile freshId =>
      dsimp only [dispatch]
      unfold handleNewProfile
      refine ⟨by simp, ?_, ⟨freshId, rfl, by simp⟩, hpend⟩
      rw [List.map_append, List.nodup_append]
      refine ⟨hnd, by simp, ?_⟩
      intro x hx hxx
      rcases List.mem_map.mp hx with ⟨p, hp, hpid⟩
      simp only [List.map_cons, List.map_nil, List.mem_cons, List.not_mem_nil, or_false] at hxx
      exact hfresh p hp (by rw [hpid, hxx])
  | updateProfileName id newName =>
      dsimp only [dispatch]
      unfold handleUpdateProfileName
      have hid : (s.profiles.map (fun p =>
          if p.id == id then { p with name := newName } else p)).map Profile.id
          = s.profiles.map Profile.id := by
        rw [List.map_map]
        apply List.map_congr_left
        intro p _
        dsimp only [Function.comp]
        split <;> rfl
      refine ⟨?_, ?_, ⟨cid, hcid, ?_⟩, hpend⟩
      · simp only [ne_eq, List.map_eq_nil_iff]
        exact hne
      · exact hid ▸ hnd
      · exact hid ▸ hmem
  | deleteProfile id =>
      dsimp only [dispatch]
      by_cases hany : s.profiles.any (fun p => p.id == id) = true
      case neg =>
        rw [if_neg hany]
        exact ⟨hne, hnd, ⟨cid, hcid, hmem⟩, hpend⟩
      rw [if_pos hany]
      unfold handleDeleteProfile
      by_cases hlen : (s.profiles.length == 1) = true
      · rw [if_pos hlen]
        exact ⟨hne, hnd, ⟨cid, hcid, hmem⟩, hpend⟩
      rw [if_neg hlen]
      have hsub : List.Sublist ((s.profiles.filter (fun p => p.id != id)).map Profile.id)
          (s.profiles.map Profile.id) :=
        (List.filter_sublist s.profiles).map Profile.id
      have hndf : ((s.profiles.filter (fun p => p.id != id)).map Profile.id).Nodup :=
        hnd.sublist hsub
      have hfne : s.profiles.filter (fun p => p.id != id) ≠ [] := by
        cases hps : s.profiles with
        | nil => exact absurd hps hne
        | cons p1 tl =>
          cases htl : tl with
          | nil =>
            exfalso
            apply hlen
            rw [hps, htl]
            rfl
          | cons p2 tl2 =>
            by_cases h1 : p1.id = id
            · have h2 : p2.id ≠ id := by
                intro h2
                rw [hps, htl] at hnd
                simp only [List.map_cons, List.nodup_cons] at hnd
                exact hnd.1 (by rw [h1, h2]; exact List.mem_cons_self _ _)
              exact List.ne_nil_of_mem (List.mem_filter.mpr
                ⟨List.mem_cons_of_mem _ (List.mem_cons_self _ _), by simp [h2]⟩)
            · exact List.ne_nil_of_mem
                (List.mem_filter.mpr ⟨List.mem_cons_self _ _, by simp [h1]⟩)
      dsimp only
      by_cases hc : (s.currentProfileId == some id) = true
      · rw [if_pos hc]
        cases hhd : (s.profiles.filter (fun p => p.id != id)).head? with
        | none => exact absurd (List.head?_eq_none_iff.mp hhd) hfne
        | some q =>
          have hq : q ∈ s.profiles.filter (fun p => p.id != id) :=
            List.mem_of_mem_head? (by rw [hhd]; exact rfl)
          refine ⟨hfne, hndf, ⟨q.id, rfl, ?_⟩, hpend⟩
          exact List.mem_map.mpr ⟨q, hq, rfl⟩
      · rw [if_neg hc]
        refine ⟨hfne, hndf, ⟨cid, hcid, ?_⟩, hpend⟩
        rcases List.mem_map.mp hmem with ⟨pc, hpc, hpcid⟩
        have hcidne : cid ≠ id := by
          intro he
          apply hc
          rw [hcid, he]
          exact beq_self_eq_true _
        refine List.mem_map.mpr ⟨pc, ?_, hpcid⟩
        refine List.mem_filter.mpr ⟨hpc, ?_⟩
        rw [hpcid]
        simp [hcidne]
  | updateEducation edu =>
      exact updateResumeData_core _ _ ⟨hne, hnd, ⟨cid, hcid, hmem⟩, hpend⟩
  | addEducation freshId =>
      exact updateResumeData_core _ _ ⟨hne, hnd, ⟨cid, hcid, hmem⟩, hpend⟩
  | removeEducation id =>
      exact updateResumeData_core _ _ ⟨hne, hnd, ⟨cid, hcid, hmem⟩, hpend⟩
  | updateProject proj =>
      exact updateResumeData_core _ _ ⟨hne, hnd, ⟨cid, hcid, hmem⟩, hpend⟩
  | addProject freshId =>
      exact updateResumeData_core _ _ ⟨hne, hnd, ⟨cid, hcid, hmem⟩, hpend⟩
  | removeProject id =>
      exact updateResumeData_core _ _ ⟨hne, hnd, ⟨cid, hcid, hmem⟩, hpend⟩
  | saveEnhancedProject proj =>
      exact updateResumeData_core _ _ ⟨hne, hnd, ⟨cid, hcid, hmem⟩, hpend⟩
  | applySuggestion sugg =>
      dsimp only [dispatch]
      unfold handleApplySuggestion
      cases hidx : s.currentResumeData.projects.findIdx? (fun p => p.id == sugg.projectId) with
      | none => exact ⟨hne, hnd, ⟨cid, hcid, hmem⟩, hpend⟩
      | some i => exact updateResumeData_core _ _ ⟨hne, hnd, ⟨cid, hcid, hmem⟩, hpend⟩
  | setJobDescription text =>
      exact ⟨hne, hnd, ⟨cid, hcid, hmem⟩, hpend⟩
  | setManualApiKey text =>
      exact ⟨hne, hnd, ⟨cid, hcid, hmem⟩, hpend⟩
  | saveApiKey =>
      dsimp only [dispatch]
      refine coreInv_transport _ s ?_ ?_ ?_ ?_ ?_ ⟨hne, hnd, ⟨cid, hcid, hmem⟩, hpend⟩ <;>
        unfold handleSaveApiKey <;>
        by_cases hk : (jsTrim s.manualApiKey != "") = true <;> simp [hk]
  | clickGenerateTailored =>
      dsimp only [dispatch]
      by_cases hd : tailorButtonDisabled s = true
      · rw [if_pos hd]
        exact ⟨hne, hnd, ⟨cid, hcid, hmem⟩, hpend⟩
      rw [if_neg hd]
      have hload : s.loadingTailor = false := by
        cases hl : s.loadingTailor
        · rfl
        · exact absurd (by simp [tailorButtonDisabled, hl]) hd
      have hpf : s.pendingTailor = false := by
        cases hp : s.pendingTailor
        · rfl
        · rw [(hpend hp).1] at hload
          exact Bool.noConfusion hload
      unfold handleGenerateTailoredResume
      split
      · exact ⟨hne, hnd, ⟨cid, hcid, hmem⟩, hpend⟩
      split
      · exact ⟨hne, hnd, ⟨cid, hcid, hmem⟩, hpend⟩
      · refine ⟨hne, hnd, ⟨cid, hcid, hmem⟩, ?_⟩
        intro hpt
        rw [hpf] at hpt
        exact Bool.noConfusion hpt
  | closeLengthModal =>
      dsimp only [dispatch]
      split
      · exact ⟨hne, hnd, ⟨cid, hcid, hmem⟩, fun hp => ⟨(hpend hp).1, rfl⟩⟩
      · exact ⟨hne, hnd, ⟨cid, hcid, hmem⟩, hpend⟩
  | selectResumeLength len =>
      dsimp only [dispatch]
      by_cases hv : s.isLengthModalVisible = true
      case neg =>
        rw [if_neg hv]
        exact ⟨hne, hnd, ⟨cid, hcid, hmem⟩, hpend⟩
      rw [if_pos hv]
      unfold startResumeGenerationBegin
      dsimp only
      cases hk : s.effectiveApiKey with
      | none =>
          exact ⟨hne, hnd, ⟨cid, hcid, hmem⟩, fun hp => ⟨(hpend hp).1, rfl⟩⟩
      | some k =>
          exact ⟨hne, hnd, ⟨cid, hcid, hmem⟩, fun _ => ⟨rfl, rfl⟩⟩
  | settleTailor result =>
      dsimp only [dispatch]
      unfold startResumeGenerationSettle
      by_cases hp : s.pendingTailor = true
      case neg =>
        rw [if_neg hp]
        exact ⟨hne, hnd, ⟨cid, hcid, hmem⟩, hpend⟩
      rw [if_pos hp]
      cases result with
      | ok resp =>
          have hcore : CoreInv (updateResumeData s (fun rd =>
              { rd with
                  summary := resp.summary
                  skills := resp.skills
                  projects := mergeTailoredProjects s.currentResumeData.projects
                    resp.enhancedProjects })) :=
            updateResumeData_core _ _ ⟨hne, hnd, ⟨cid, hcid, hmem⟩, hpend⟩
          obtain ⟨hne2, hnd2, ⟨cid2, hcid2, hmem2⟩, _⟩ := hcore
          exact ⟨hne2, hnd2, ⟨cid2, hcid2, hmem2⟩, fun hx => Bool.noConfusion hx⟩
      | error msg =>
          exact ⟨hne, hnd, ⟨cid, hcid, hmem⟩, fun hx => Bool.noConfusion hx⟩
  | openResumeUploadModal =>
      exact ⟨hne, hnd, ⟨cid, hcid, hmem⟩, hpend⟩
  | closeResumeUploadModal =>
      exact ⟨hne, hnd, ⟨cid, hcid, hmem⟩, hpend⟩
  | saveExtracted data newProfileId eduIds projIds =>
      dsimp only [dispatch]
      by_cases hm : s.showResumeUploadModal = true
      case neg =>
        rw [if_neg hm]
        exact ⟨hne, hnd, ⟨cid, hcid, hmem⟩, hpend⟩
      rw [if_pos hm]
      unfold handleSaveExtractedResumeData
      dsimp only
      refine ⟨by simp, ?_, ⟨newProfileId, rfl, by simp⟩, hpend⟩
      rw [List.map_append, List.nodup_append]
      refine ⟨hnd, by simp, ?_⟩
      intro x hx hxx
      rcases List.mem_map.mp hx with ⟨p, hp, hpid⟩
      simp only [List.map_cons, List.map_nil, List.mem_cons, List.not_mem_nil, or_false] at hxx
      exact hfresh p hp (by rw [hpid, hxx])

theorem initProfilesState_core (storage0 : Storage) (parsedProfiles : Option (List Profile))
    (freshId : String)
    (hnd : ∀ l, parsedProfiles = some l → (l.map Profile.id).Nodup) :
    CoreInv (initProfilesState storage0 parsedProfiles freshId) := by
  unfold initProfilesState
  cases parsedProfiles with
  | none =>
      exact ⟨by simp, by simp, ⟨freshId, rfl, by simp⟩, fun h => Bool.noConfusion h⟩
  | some l =>
      cases l with
      | nil =>
          exact ⟨by simp, by simp, ⟨freshId, rfl, by simp⟩, fun h => Bool.noConfusion h⟩
      | cons p0 rest =>
          dsimp only
          refine ⟨by simp, hnd (p0 :: rest) rfl, ?_, fun h => Bool.noConfusion h⟩
          cases storage0.lastSelectedProfileId with
          | none => exact ⟨p0.id, rfl, List.mem_map.mpr ⟨p0, List.mem_cons_self _ _, rfl⟩⟩
          | some lastId =>
              dsimp only
              cases hf : (p0 :: rest).find? (fun p => p.id == lastId) with
              | none => exact ⟨p0.id, rfl, List.mem_map.mpr ⟨p0, List.mem_cons_self _ _, rfl⟩⟩
              | some foundProfile =>
                  exact ⟨foundProfile.id, rfl, List.mem_map.mpr
                    ⟨foundProfile, List.mem_of_find?_eq_some hf, rfl⟩⟩

theorem initApplyStoredKey_core (storage0 : Storage) (envKey : Option String)
    (t : AppState) (h : CoreInv t) :
    CoreInv (initApplyStoredKey storage0 envKey t) := by
  unfold initApplyStoredKey
  cases storage0.geminiApiKey with
  | none => exact coreInv_transport _ t rfl rfl rfl rfl rfl h
  | some storedKey =>
      dsimp only
      by_cases hk : (storedKey != "") = true
      · rw [if_pos hk]
        exact coreInv_transport _ t rfl rfl rfl rfl rfl h
      · rw [if_neg hk]
        exact coreInv_transport _ t rfl rfl rfl rfl rfl h

theorem runEffects_inv (s : AppState) (h : CoreInv s) : AppInv (runEffects s) := by
  obtain ⟨hne, hnd, ⟨cid, hcid, hmem⟩, hpend⟩ := h
  refine ⟨⟨?_, ?_, ⟨cid, ?_, ?_⟩, ?_⟩, ?_, ?_⟩
  · rw [runEffects_profiles]; exact hne
  · rw [runEffects_profiles]; exact hnd
  · rw [runEffects_currentProfileId]; exact hcid
  · rw [runEffects_profiles]; exact hmem
  · intro hp
    rw [runEffects_pendingTailor] at hp
    exact ⟨by rw [runEffects_loadingTailor]; exact (hpend hp).1,
      by rw [runEffects_isLengthModalVisible]; exact (hpend hp).2⟩
  · rw [runEffects_resumeProfiles, runEffects_profiles]
  · intro cid2 hc2
    rw [runEffects_currentProfileId] at hc2
    exact runEffects_lastSelected_of s cid2 hc2

theorem initApp_inv (storage0 : Storage) (parsedProfiles : Option (List Profile))
    (envKey : Option String) (freshId : String)
    (hnd : ∀ l, parsedProfiles = some l → (l.map Profile.id).Nodup) :
    AppInv (initApp storage0 parsedProfiles envKey freshId) := by
  unfold initApp
  exact runEffects_inv _ (initApplyStoredKey_core _ _ _
    (initProfilesState_core storage0 parsedProfiles freshId hnd))

theorem step_inv (s : AppState) (a : Action) (h : AppInv s) (hfresh : FreshIdsOk s a) :
    AppInv (step s a) :=
  runEffects_inv _ (core_step s a h.1 hfresh)

/-- Every reachable state satisfies the full invariant. -/
theorem reachable_inv (s : AppState) (h : Reachable s) : AppInv s := by
  induction h with
  | init storage0 parsed envKey freshId hnd => exact initApp_inv storage0 parsed envKey freshId hnd
  | next s1 a hs hfresh ih => exact step_inv s1 a ih hfresh

/-! ## Claims C6, C8, C9 -/

/-- C6: in every reachable state the local-storage entry resumeProfiles
equals the JSON serialization of the complete profile list, and whenever a
profile is selected the entry lastSelectedProfileId equals the current
profile's id. -/
theorem claim_C6 (s : AppState) (h : Reachable s) :
    s.storage.resumeProfiles = some (serializeProfiles s.profiles) ∧
    (∀ cid, s.currentProfileId = some cid →
      s.storage.lastSelectedProfileId = some cid) :=
  ⟨(reachable_inv s h).2.1, (reachable_inv s h).2.2⟩

def initialState0 : AppState := initApp {} none none "p0"

/-- C6 witness: the invariant at the state right after a first mount with
empty storage. -/
theorem claim_C6_witness :
    initialState0.storage.resumeProfiles = some (serializeProfiles initialState0.profiles) ∧
    (∀ cid, initialState0.currentProfileId = some cid →
      initialState0.storage.lastSelectedProfileId = some cid) :=
  claim_C6 initialState0
    (Reachable.init {} none none "p0" (fun _ hl => Option.noConfusion hl))

/-- C9: in every reachable state the profile list is nonempty and the
selection refers to an existing profile; moreover deleting is refused
(state unchanged) while exactly one profile exists. -/
theorem claim_C9 (s : AppState) (h : Reachable s) :
    s.profiles ≠ [] ∧
    (∃ cid, s.currentProfileId = some cid ∧ cid ∈ s.profiles.map Profile.id) ∧
    (∀ id, s.profiles.length = 1 → handleDeleteProfile s id = s) := by
  obtain ⟨⟨hne, _, hcur, _⟩, _, _⟩ := reachable_inv s h
  refine ⟨hne, hcur, ?_⟩
  intro id hlen
  unfold handleDeleteProfile
  rw [if_pos (by rw [hlen]; rfl)]

/-- C9 witness: the invariant and the deletion refusal at the state after a
first mount with empty storage. -/
theorem claim_C9_witness :
    initialState0.profiles ≠ [] ∧
    (∃ cid, initialState0.currentProfileId = some cid ∧
      cid ∈ initialState0.profiles.map Profile.id) ∧
    handleDeleteProfile initialState0 "p0" = initialState0 := by
  have h := claim_C9 initialState0
    (Reachable.init {} none none "p0" (fun _ hl => Option.noConfusion hl))
  exact ⟨h.1, h.2.1, h.2.2 "p0" (by rfl)⟩

/-- C8: whenever a tailoring request is in flight in a reachable state, the
loading flag is set and the Generate Tailored Resume control is disabled,
and no user step can issue a second request before the first settles. -/
theorem claim_C8 (s : AppState) (h : Reachable s) (hp : s.pendingTailor = true) :
    s.loadingTailor = true ∧
    tailorButtonDisabled s = true ∧
    (∀ a, (step s a).tailorRequests = s.tailorRequests) := by
  obtain ⟨⟨hne, hnd, hcur, hpend⟩, _, _⟩ := reachable_inv s h
  obtain ⟨hload, hmodal⟩ := hpend hp
  refine ⟨hload, by simp [tailorButtonDisabled, hload], ?_⟩
  intro a
  have hsr : (step s a).tailorRequests = (dispatch s a).tailorRequests :=
    runEffects_tailorRequests _
  rw [hsr]
  cases a with
  | selectProfile id =>
      dsimp only [dispatch]; split <;> rfl
  | newProfile fid => rfl
  | updateProfileName id n => rfl
  | deleteProfile id =>
      dsimp only [dispatch]
      split
      · unfold handleDeleteProfile
        split
        · rfl
        · dsimp only
          split <;> rfl
      · rfl
  | updateEducation edu => rfl
  | addEducation fid => rfl
  | removeEducation id => rfl
  | updateProject proj => rfl
  | addProject fid => rfl
  | removeProject id => rfl
  | saveEnhancedProject proj => rfl
  | applySuggestion sugg =>
      dsimp only [dispatch]
      unfold handleApplySuggestion
      split <;> rfl
  | setJobDescription text => rfl
  | setManualApiKey text => rfl
  | saveApiKey =>
      dsimp only [dispatch]
      unfold handleSaveApiKey
      by_cases hk : (jsTrim s.manualApiKey != "") = true <;> simp [hk]
  | clickGenerateTailored =>
      dsimp only [dispatch]
      rw [if_pos (show tailorButtonDisabled s = true by simp [tailorButtonDisabled, hload])]
  | closeLengthModal =>
      dsimp only [dispatch]; split <;> rfl
  | selectResumeLength len =>
      dsimp only [dispatch]
      rw [if_neg (show ¬ s.isLengthModalVisible = true by simp [hmodal])]
  | settleTailor result =>
      dsimp only [dispatch]
      unfold startResumeGenerationSettle
      rw [if_pos hp]
      cases result <;> rfl
  | openResumeUploadModal => rfl
  | closeResumeUploadModal => rfl
  | saveExtracted data pid eduIds projIds =>
      dsimp only [dispatch]; split <;> rfl

def storageWithKey : Storage := { geminiApiKey := some "k" }

/-- State with an in-flight tailoring request: mount with a stored key,
paste a job description, click Generate Tailored Resume, choose a length. -/
def pendingDemoState : AppState :=
  step (step (step (initApp storageWithKey none none "p0")
    (Action.setJobDescription "jd")) Action.clickGenerateTailored)
    (Action.selectResumeLength ResumeLength.onePage)

/-- C8 witness: the in-flight state reached by the concrete click sequence
has the loading flag set, the control disabled, and a further
length-selection step issues no second request. -/
theorem claim_C8_witness :
    pendingDemoState.pendingTailor = true ∧
    pendingDemoState.loadingTailor = true ∧
    tailorButtonDisabled pendingDemoState = true ∧
    (step pendingDemoState (Action.selectResumeLength ResumeLength.onePage)).tailorRequests
      = pendingDemoState.tailorRequests := by
  have hreach : Reachable pendingDemoState :=
    Reachable.next _ _ (Reachable.next _ _ (Reachable.next _ _
      (Reachable.init storageWithKey none none "p0" (fun _ hl => Option.noConfusion hl))
      trivial) trivial) trivial
  have hp : pendingDemoState.pendingTailor = true := by rfl
  obtain ⟨h1, h2, h3⟩ := claim_C8 pendingDemoState hreach hp
  exact ⟨hp, h1, h2, h3 _⟩

end ResumeBuilder
